import Mathlib

/-!
Verification of the remote catalog resolution and fallback subsystem
(`src-tauri/src/commands/skills.rs`, `src-tauri/src/commands/models.rs`).

The HTTP layer is shallowly embedded: an operation's interaction with the
network is a value of `FetchOutcome` (transport failure, or a response
carrying a numeric status together with the result of decoding the body).
HTTP statuses are natural numbers; `status_is_success` mirrors
`StatusCode::is_success` (the 2xx range).  The filesystem is an explicit
state (`FS`) threaded through the installer.  Rust's `Result<T, String>` is
`Except String T`.  Where the code renders a status with `Display`
(`"403 Forbidden"`), the embedding renders only the numeric part; no claim
depends on the reason phrase.
-/

/-- `StatusCode::is_success`: the 2xx range. -/
def status_is_success (s : Nat) : Bool :=
  200 ≤ s && s < 300

/-- Outcome of one HTTP GET: transport failure carrying the error message,
or a response with its status and the decoded body (decoding the body may
itself fail with a message). -/
inductive FetchOutcome (α : Type) where
  | transportFailure (msg : String)
  | httpResponse (status : Nat) (body : Except String α)
deriving Repr

/-- `SkillInfo` from `skills.rs`: one catalog entry. -/
structure SkillInfo where
  name : String
  description : String
  url : String
deriving Repr, DecidableEq

/-- `GitHubContent` from `skills.rs`: one element of a GitHub
directory-listing response. -/
structure GitHubContent where
  name : String
  path : String
  content_type : String
  html_url : String
deriving Repr, DecidableEq

/-- The static fallback list built at the top of `fetch_mcp_marketplace`. -/
def fallback_servers : List SkillInfo :=
  [ { name := "filesystem",
      description := "Read/Write local files",
      url := "https://github.com/modelcontextprotocol/servers/tree/main/src/filesystem" },
    { name := "memory",
      description := "Graph-based memory",
      url := "https://github.com/modelcontextprotocol/servers/tree/main/src/memory" },
    { name := "fetch",
      description := "Fetch web content",
      url := "https://github.com/modelcontextprotocol/servers/tree/main/src/fetch" },
    { name := "postgres",
      description := "PostgreSQL Database",
      url := "https://github.com/modelcontextprotocol/servers/tree/main/src/postgres" },
    { name := "sqlite",
      description := "SQLite Database",
      url := "https://github.com/modelcontextprotocol/servers/tree/main/src/sqlite" },
    { name := "github",
      description := "GitHub API Integration",
      url := "https://github.com/modelcontextprotocol/servers/tree/main/src/github" },
    { name := "slack",
      description := "Slack Integration",
      url := "https://github.com/modelcontextprotocol/servers/tree/main/src/slack" },
    { name := "google-drive",
      description := "Google Drive Access",
      url := "https://github.com/modelcontextprotocol/servers/tree/main/src/google-drive" } ]

/-- The normalization loop of `fetch_available_skills`: keep `"dir"`
entries, template the description, carry `html_url` over. -/
def normalize_skills : List GitHubContent → List SkillInfo
  | [] => []
  | item :: rest =>
    if item.content_type == "dir" then
      { name := item.name,
        description := "Official Skill: " ++ item.name,
        url := item.html_url } :: normalize_skills rest
    else
      normalize_skills rest

/-- The normalization loop of `fetch_mcp_marketplace`: keep `"dir"`
entries, template the description, carry `html_url` over. -/
def normalize_mcp : List GitHubContent → List SkillInfo
  | [] => []
  | item :: rest =>
    if item.content_type == "dir" then
      { name := item.name,
        description := "Official MCP Server: " ++ item.name,
        url := item.html_url } :: normalize_mcp rest
    else
      normalize_mcp rest

/-- `fetch_available_skills`, abstracted over the network outcome: transport
errors, non-success statuses and decode errors are all propagated with `?`
(as error strings); a successful body is normalized and returned as-is. -/
def fetch_available_skills (outcome : FetchOutcome (List GitHubContent)) :
    Except String (List SkillInfo) :=
  match outcome with
  | .transportFailure msg => .error msg
  | .httpResponse status body =>
    if !status_is_success status then
      .error ("GitHub API Error: " ++ toString status)
    else
      match body with
      | .error msg => .error msg
      | .ok contents => .ok (normalize_skills contents)

/-- `fetch_mcp_marketplace`, abstracted over the network outcome: transport
failure, non-success status, decode failure and an empty normalized result
all yield `fallback_servers`; a non-empty normalized result is returned. -/
def fetch_mcp_marketplace (outcome : FetchOutcome (List GitHubContent)) :
    Except String (List SkillInfo) :=
  match outcome with
  | .transportFailure _ => .ok fallback_servers
  | .httpResponse status body =>
    if !status_is_success status then
      .ok fallback_servers
    else
      match body with
      | .error _ => .ok fallback_servers
      | .ok items =>
        let servers := normalize_mcp items
        if servers.isEmpty then
          .ok fallback_servers
        else
          .ok servers

/-- `ModelInfo` from `models.rs`. -/
structure ModelInfo where
  id : String
  display_name : String
  created_at : String
  model_type : String
deriving Repr, DecidableEq

/-- `ModelsResponse` from `models.rs`: one page of the model catalog. -/
structure ModelsResponse where
  data : List ModelInfo
  has_more : Bool
  first_id : Option String
  last_id : Option String
deriving Repr, DecidableEq

/-- The credential resolution prefix of `list_anthropic_models`: an explicit
argument wins; otherwise `env::var("ANTHROPIC_API_KEY")` then
`env::var("CLAUDE_API_KEY")` (`env::var` succeeds exactly on variables that
are set, embedded as `env : String → Option String`); otherwise the
missing-credential error. -/
def resolve_api_key (api_key : Option String) (env : String → Option String) :
    Except String String :=
  match api_key with
  | some k => .ok k
  | none =>
    match env "ANTHROPIC_API_KEY" with
    | some v => .ok v
    | none =>
      match env "CLAUDE_API_KEY" with
      | some v => .ok v
      | none => .error "No API key provided and none found in environment variables"

/-- Network outcome for `list_anthropic_models`.  The response body is
consumed as raw text on the non-success path (`res.text()`, whose failure the
code replaces with `"Unknown error"`) and as decoded JSON on the success path
(`res.json`), so the embedding carries both readings. -/
inductive ModelsOutcome where
  | transportFailure (msg : String)
  | httpResponse (status : Nat) (bodyText : Option String)
      (decoded : Except String ModelsResponse)
deriving Repr

/-- `list_anthropic_models`, abstracted over the environment, over whether
`HeaderValue::from_str` accepts the key (`headerValid`), and over the network
outcome.  The second component of the result records whether the network
request was issued. -/
def list_anthropic_models (api_key : Option String)
    (env : String → Option String) (headerValid : String → Bool)
    (outcome : ModelsOutcome) : Except String ModelsResponse × Bool :=
  match resolve_api_key api_key env with
  | .error e => (.error e, false)
  | .ok key =>
    if headerValid key then
      match outcome with
      | .transportFailure msg => (.error msg, true)
      | .httpResponse status bodyText decoded =>
        if !status_is_success status then
          (.error ("API request failed: " ++ bodyText.getD "Unknown error"), true)
        else
          match decoded with
          | .error msg => (.error msg, true)
          | .ok body => (.ok body, true)
    else
      (.error "failed to parse header value", false)

/-- A filesystem state: the set of directories that exist (as component
lists) and an association of file paths to contents. -/
structure FS where
  dirs : List (List String)
  files : List (List String × String)
deriving Repr, DecidableEq

/-- Association-list lookup of a file path. -/
def lookupFile : List (List String × String) → List String → Option String
  | [], _ => none
  | (p, c) :: rest, q => if q = p then some c else lookupFile rest q

/-- Contents of the file at `path`, if it exists. -/
def FS.read (fs : FS) (path : List String) : Option String :=
  lookupFile fs.files path

/-- `fs::write`: create or overwrite the file at `path` with `content`. -/
def FS.write (fs : FS) (path : List String) (content : String) : FS :=
  { fs with files := (path, content) :: fs.files }

/-- The non-empty prefixes of a path: every intermediate directory up to and
including the path itself. -/
def pathAncestors : List String → List (List String)
  | [] => []
  | x :: xs => [x] :: (pathAncestors xs).map (List.cons x)

/-- `fs::create_dir_all`: create the directory at `path` and every
intermediate directory. -/
def FS.createDirAll (fs : FS) (path : List String) : FS :=
  { fs with dirs := pathAncestors path ++ fs.dirs }

/-- The destination directory of `install_skill`:
`<project_path>/.claude/skills/<skill_name>`. -/
def skill_dest_dir (project_path skill_name : String) : List String :=
  [project_path, ".claude", "skills", skill_name]

/-- The destination file of `install_skill`:
`<project_path>/.claude/skills/<skill_name>/SKILL.md`. -/
def skill_dest_file (project_path skill_name : String) : List String :=
  skill_dest_dir project_path skill_name ++ ["SKILL.md"]

/-- `install_skill`, abstracted over the network outcome for the raw content
fetch, with the filesystem threaded explicitly: transport failure,
non-success status and text-read failure are surfaced as errors and leave
the filesystem untouched; on success, the destination directory chain is
created and the full content is written to the destination file. -/
def install_skill (project_path skill_name : String)
    (outcome : FetchOutcome String) (fs : FS) : Except String Unit × FS :=
  match outcome with
  | .transportFailure msg => (.error msg, fs)
  | .httpResponse status body =>
    if !status_is_success status then
      (.error ("Failed to download SKILL.md: " ++ toString status), fs)
    else
      match body with
      | .error msg => (.error msg, fs)
      | .ok content =>
        let destDir := skill_dest_dir project_path skill_name
        let fs1 := fs.createDirAll destDir
        (.ok (), fs1.write (skill_dest_file project_path skill_name) content)

/-- An absolute URL in the sense of the catalog-entry invariant: an explicit
scheme of the sources modeled here.  (The check is written over character
lists so that it evaluates by kernel reduction.) -/
def is_absolute_url (s : String) : Bool :=
  List.isPrefixOf "https://".toList s.toList ||
  List.isPrefixOf "http://".toList s.toList

/-- The `CatalogEntry` invariant of the data model: non-empty name and an
absolute source URL. -/
def entry_invariant (e : SkillInfo) : Bool :=
  !e.name.isEmpty && is_absolute_url e.url

/-! ## Shared lemmas -/

/-- The marketplace query returns `Ok` on every network outcome. -/
theorem mcp_isOk (o : FetchOutcome (List GitHubContent)) :
    (fetch_mcp_marketplace o).isOk = true := by
  cases o with
  | transportFailure msg => rfl
  | httpResponse status body =>
    simp only [fetch_mcp_marketplace]
    split
    · rfl
    · cases body with
      | error msg => rfl
      | ok items =>
        simp only []
        split
        · rfl
        · rfl

/-- Transport failure yields the fallback list. -/
theorem mcp_transport (msg : String) :
    fetch_mcp_marketplace (.transportFailure msg) = .ok fallback_servers := rfl

/-- A non-success status yields the fallback list. -/
theorem mcp_bad_status (status : Nat) (body : Except String (List GitHubContent))
    (h : status_is_success status = false) :
    fetch_mcp_marketplace (.httpResponse status body) = .ok fallback_servers := by
  simp [fetch_mcp_marketplace, h]

/-- A decode failure on a success status yields the fallback list. -/
theorem mcp_decode_failure (status : Nat) (msg : String)
    (h : status_is_success status = true) :
    fetch_mcp_marketplace (.httpResponse status (.error msg)) = .ok fallback_servers := by
  simp [fetch_mcp_marketplace, h]

/-- A non-empty normalized result on a success status is returned as-is. -/
theorem mcp_live (status : Nat) (items : List GitHubContent)
    (h : status_is_success status = true) (h2 : (normalize_mcp items).isEmpty = false) :
    fetch_mcp_marketplace (.httpResponse status (.ok items)) = .ok (normalize_mcp items) := by
  simp [fetch_mcp_marketplace, h, h2]

/-- An empty normalized result on a success status yields the fallback list. -/
theorem mcp_empty_live (status : Nat) (items : List GitHubContent)
    (h : status_is_success status = true) (h2 : normalize_mcp items = []) :
    fetch_mcp_marketplace (.httpResponse status (.ok items)) = .ok fallback_servers := by
  simp [fetch_mcp_marketplace, h, h2]

/-- The skills normalization loop is the filter of `"dir"` entries followed
by the entry-construction map. -/
theorem normalize_skills_eq (items : List GitHubContent) :
    normalize_skills items =
      (items.filter (fun i => i.content_type == "dir")).map
        (fun i => { name := i.name, description := "Official Skill: " ++ i.name,
                    url := i.html_url }) := by
  induction items with
  | nil => rfl
  | cons a rest ih =>
    cases h : a.content_type == "dir" <;>
      simp [normalize_skills, List.filter_cons, h, ih]

/-- The marketplace normalization loop is the filter of `"dir"` entries
followed by the entry-construction map. -/
theorem normalize_mcp_eq (items : List GitHubContent) :
    normalize_mcp items =
      (items.filter (fun i => i.content_type == "dir")).map
        (fun i => { name := i.name, description := "Official MCP Server: " ++ i.name,
                    url := i.html_url }) := by
  induction items with
  | nil => rfl
  | cons a rest ih =>
    cases h : a.content_type == "dir" <;>
      simp [normalize_mcp, List.filter_cons, h, ih]

/-- A listing with no `"dir"` entry normalizes to the empty list
(marketplace loop). -/
theorem normalize_mcp_nil (items : List GitHubContent)
    (h : ∀ i ∈ items, i.content_type ≠ "dir") : normalize_mcp items = [] := by
  induction items with
  | nil => rfl
  | cons a rest ih =>
    have ha : (a.content_type == "dir") = false := by
      simpa using h a (List.mem_cons_self a rest)
    simp [normalize_mcp, ha, ih fun i hi => h i (List.mem_cons_of_mem a hi)]

/-- A listing with no `"dir"` entry normalizes to the empty list
(skills loop). -/
theorem normalize_skills_nil (items : List GitHubContent)
    (h : ∀ i ∈ items, i.content_type ≠ "dir") : normalize_skills items = [] := by
  induction items with
  | nil => rfl
  | cons a rest ih =>
    have ha : (a.content_type == "dir") = false := by
      simpa using h a (List.mem_cons_self a rest)
    simp [normalize_skills, ha, ih fun i hi => h i (List.mem_cons_of_mem a hi)]

/-! ## Claims -/

/-- C1: `fetch_mcp_marketplace` never returns an error: transport failure,
non-success HTTP status and JSON decode failure each yield success with
exactly the statically embedded 8-entry fallback catalog in its fixed
declared order (filesystem, memory, fetch, postgres, sqlite, github, slack,
google-drive), and a non-empty live result is returned as-is, discarding the
fallback entirely. -/
theorem C1_marketplace_never_fails :
    (∀ o : FetchOutcome (List GitHubContent), (fetch_mcp_marketplace o).isOk = true) ∧
    (∀ msg, fetch_mcp_marketplace (.transportFailure msg) = .ok fallback_servers) ∧
    (∀ status body, status_is_success status = false →
      fetch_mcp_marketplace (.httpResponse status body) = .ok fallback_servers) ∧
    (∀ status msg, status_is_success status = true →
      fetch_mcp_marketplace (.httpResponse status (.error msg)) = .ok fallback_servers) ∧
    fallback_servers.length = 8 ∧
    fallback_servers.map SkillInfo.name =
      ["filesystem", "memory", "fetch", "postgres", "sqlite", "github", "slack",
       "google-drive"] ∧
    (∀ status items, status_is_success status = true →
      (normalize_mcp items).isEmpty = false →
      fetch_mcp_marketplace (.httpResponse status (.ok items)) = .ok (normalize_mcp items)) :=
  ⟨mcp_isOk, mcp_transport, mcp_bad_status, mcp_decode_failure, rfl, rfl, mcp_live⟩

/-- Witness for C1: HTTP 403, a decode failure on HTTP 200, and a one-entry
live listing, at concrete inputs. -/
theorem C1_marketplace_never_fails_witness :
    fetch_mcp_marketplace (.httpResponse 403 (.ok [])) = .ok fallback_servers ∧
    fetch_mcp_marketplace (.httpResponse 200 (.error "bad json")) = .ok fallback_servers ∧
    fetch_mcp_marketplace (.httpResponse 200
        (.ok [⟨"filesystem", "src/filesystem", "dir", "https://x"⟩])) =
      .ok (normalize_mcp [⟨"filesystem", "src/filesystem", "dir", "https://x"⟩]) :=
  ⟨C1_marketplace_never_fails.2.2.1 403 (.ok []) (by decide),
   C1_marketplace_never_fails.2.2.2.1 200 "bad json" (by decide),
   C1_marketplace_never_fails.2.2.2.2.2.2 200
     [⟨"filesystem", "src/filesystem", "dir", "https://x"⟩] (by decide) (by decide)⟩

/-- C2 counterexample: `fetch_available_skills` surfaces a transport failure
as an error, so an error value does cross the component boundary, refuting
the claim at the concrete input `transportFailure "connection refused"`. -/
theorem C2_counterexample :
    fetch_available_skills (.transportFailure "connection refused") =
      .error "connection refused" ∧
    (fetch_available_skills (.transportFailure "connection refused")).isOk = false :=
  ⟨rfl, rfl⟩

/-- C2 amended: only `fetch_mcp_marketplace` converts every failure kind
(transport failure, non-success status, decode failure) to a successful
fallback result; `fetch_available_skills` instead propagates each of those
failure kinds as an error to the caller. -/
theorem C2_fallback_policy_split :
    (∀ o : FetchOutcome (List GitHubContent), (fetch_mcp_marketplace o).isOk = true) ∧
    (∀ msg, fetch_available_skills (.transportFailure msg) = .error msg) ∧
    (∀ status body, status_is_success status = false →
      fetch_available_skills (.httpResponse status body) =
        .error ("GitHub API Error: " ++ toString status)) ∧
    (∀ status msg, status_is_success status = true →
      fetch_available_skills (.httpResponse status (.error msg)) = .error msg) := by
  refine ⟨mcp_isOk, fun msg => rfl, ?_, ?_⟩
  · intro status body h
    simp [fetch_available_skills, h]
  · intro status msg h
    simp [fetch_available_skills, h]

/-- Witness for C2 amended: HTTP 404 and a decode failure on HTTP 200, at
concrete inputs. -/
theorem C2_fallback_policy_split_witness :
    fetch_available_skills (.httpResponse 404 (.ok [])) =
      .error ("GitHub API Error: " ++ toString 404) ∧
    fetch_available_skills (.httpResponse 200 (.error "bad json")) = .error "bad json" :=
  ⟨C2_fallback_policy_split.2.2.1 404 (.ok []) (by decide),
   C2_fallback_policy_split.2.2.2 200 "bad json" (by decide)⟩

/-- C3: both normalization loops promote exactly the `"dir"` elements, in
their received order, mapping each to an entry with the same name, the
templated description and the element's `html_url`; in particular the
two-element scenario input yields exactly one entry named `"filesystem"`. -/
theorem C3_normalization :
    (∀ items, normalize_skills items =
      (items.filter (fun i => i.content_type == "dir")).map
        (fun i => { name := i.name, description := "Official Skill: " ++ i.name,
                    url := i.html_url })) ∧
    (∀ items, normalize_mcp items =
      (items.filter (fun i => i.content_type == "dir")).map
        (fun i => { name := i.name, description := "Official MCP Server: " ++ i.name,
                    url := i.html_url })) ∧
    normalize_skills
        [⟨"filesystem", "skills/filesystem", "dir", "https://x"⟩,
         ⟨"README.md", "skills/README.md", "file", "https://y"⟩] =
      [⟨"filesystem", "Official Skill: filesystem", "https://x"⟩] :=
  ⟨normalize_skills_eq, normalize_mcp_eq, rfl⟩

/-- C4 counterexample: on a well-formed 200 listing with zero `"dir"`
entries, `fetch_available_skills` returns the empty catalog, not the static
fallback, refuting the claim for that operation. -/
theorem C4_counterexample :
    fetch_available_skills (.httpResponse 200
        (.ok [⟨"README.md", "skills/README.md", "file", "https://y"⟩])) = .ok [] ∧
    ([] : List SkillInfo) ≠ fallback_servers :=
  ⟨rfl, by decide⟩

/-- C4 amended: on a well-formed success response whose elements contain
zero `"dir"` entries, `fetch_mcp_marketplace` returns the static fallback
catalog, while `fetch_available_skills` returns the empty catalog (it has no
fallback). -/
theorem C4_empty_listing_degrades :
    (∀ status items, status_is_success status = true →
      (∀ i ∈ items, i.content_type ≠ "dir") →
      fetch_mcp_marketplace (.httpResponse status (.ok items)) = .ok fallback_servers) ∧
    (∀ status items, status_is_success status = true →
      (∀ i ∈ items, i.content_type ≠ "dir") →
      fetch_available_skills (.httpResponse status (.ok items)) = .ok []) := by
  constructor
  · intro status items h hd
    exact mcp_empty_live status items h (normalize_mcp_nil items hd)
  · intro status items h hd
    simp [fetch_available_skills, h, normalize_skills_nil items hd]

/-- Witness for C4 amended: a one-file listing on HTTP 200, at concrete
inputs. -/
theorem C4_empty_listing_degrades_witness :
    fetch_mcp_marketplace (.httpResponse 200
        (.ok [⟨"README.md", "p", "file", "https://y"⟩])) = .ok fallback_servers ∧
    fetch_available_skills (.httpResponse 200
        (.ok [⟨"README.md", "p", "file", "https://y"⟩])) = .ok [] :=
  ⟨C4_empty_listing_degrades.1 200 [⟨"README.md", "p", "file", "https://y"⟩]
     (by decide) (by decide),
   C4_empty_listing_degrades.2 200 [⟨"README.md", "p", "file", "https://y"⟩]
     (by decide) (by decide)⟩

/-- C5 counterexample: an explicit empty key is used verbatim instead of
falling through to the environment (`some ""` with `ANTHROPIC_API_KEY` set
to `"envkey"` resolves to `""`, not `"envkey"`); likewise a set-but-empty
`ANTHROPIC_API_KEY` is used instead of probing `CLAUDE_API_KEY`. -/
theorem C5_counterexample :
    resolve_api_key (some "")
        (fun n => if n = "ANTHROPIC_API_KEY" then some "envkey" else none) = .ok "" ∧
    ("" : String) ≠ "envkey" ∧
    resolve_api_key none
        (fun n => if n = "ANTHROPIC_API_KEY" then some ""
                  else if n = "CLAUDE_API_KEY" then some "claudekey" else none) = .ok "" :=
  ⟨rfl, by decide, rfl⟩

/-- C5 amended: if the explicit `api_key` argument is present it is used
verbatim, even when empty; otherwise `ANTHROPIC_API_KEY` then
`CLAUDE_API_KEY` are probed in that order and the first that is set is used,
even when set to the empty string; if neither is set, the operation fails
with the missing-credential error before any network call is attempted. -/
theorem C5_credential_resolution :
    (∀ k env, resolve_api_key (some k) env = .ok k) ∧
    (∀ env v, env "ANTHROPIC_API_KEY" = some v → resolve_api_key none env = .ok v) ∧
    (∀ env v, env "ANTHROPIC_API_KEY" = none → env "CLAUDE_API_KEY" = some v →
      resolve_api_key none env = .ok v) ∧
    (∀ env, env "ANTHROPIC_API_KEY" = none → env "CLAUDE_API_KEY" = none →
      resolve_api_key none env =
        .error "No API key provided and none found in environment variables") ∧
    (∀ env hv o, env "ANTHROPIC_API_KEY" = none → env "CLAUDE_API_KEY" = none →
      list_anthropic_models none env hv o =
        (.error "No API key provided and none found in environment variables", false)) := by
  refine ⟨fun k env => rfl, ?_, ?_, ?_, ?_⟩
  · intro env v h
    simp [resolve_api_key, h]
  · intro env v h1 h2
    simp [resolve_api_key, h1, h2]
  · intro env h1 h2
    simp [resolve_api_key, h1, h2]
  · intro env hv o h1 h2
    simp [list_anthropic_models, resolve_api_key, h1, h2]

/-- Witness for C5 amended: empty environment, arbitrary network outcome, at
concrete inputs; the network flag is `false`. -/
theorem C5_credential_resolution_witness :
    list_anthropic_models none (fun _ => none) (fun _ => true)
        (.transportFailure "never sent") =
      (.error "No API key provided and none found in environment variables", false) :=
  C5_credential_resolution.2.2.2.2 (fun _ => none) (fun _ => true)
    (.transportFailure "never sent") rfl rfl

/-- C6 counterexample: the non-success error of `list_anthropic_models`
does not carry the status: statuses 403 and 500 with the same body produce
the identical error value, which contains only the body text. -/
theorem C6_counterexample :
    (list_anthropic_models (some "k") (fun _ => none) (fun _ => true)
        (.httpResponse 403 (some "rate limited") (.error "x"))).1 =
      (list_anthropic_models (some "k") (fun _ => none) (fun _ => true)
        (.httpResponse 500 (some "rate limited") (.error "x"))).1 ∧
    (403 : Nat) ≠ 500 ∧
    (list_anthropic_models (some "k") (fun _ => none) (fun _ => true)
        (.httpResponse 403 (some "rate limited") (.error "x"))).1 =
      .error "API request failed: rate limited" :=
  ⟨rfl, by decide, rfl⟩

/-- C6 amended: model listing does not use the fallback policy: on every
non-success HTTP status it fails with an upstream error carrying the raw
body of the response (the status itself is not included in the error), and
never returns a substitute catalog. -/
theorem C6_models_no_fallback (key : String) (env : String → Option String)
    (hv : String → Bool) (status : Nat) (bodyText : Option String)
    (decoded : Except String ModelsResponse)
    (hkey : hv key = true) (hstat : status_is_success status = false) :
    list_anthropic_models (some key) env hv (.httpResponse status bodyText decoded) =
      (.error ("API request failed: " ++ bodyText.getD "Unknown error"), true) := by
  simp [list_anthropic_models, resolve_api_key, hkey, hstat]

/-- Witness for C6 amended: HTTP 403 with body `"forbidden"`, at concrete
inputs. -/
theorem C6_models_no_fallback_witness :
    list_anthropic_models (some "k") (fun _ => none) (fun _ => true)
        (.httpResponse 403 (some "forbidden") (.error "x")) =
      (.error "API request failed: forbidden", true) :=
  C6_models_no_fallback "k" (fun _ => none) (fun _ => true) 403 (some "forbidden")
    (.error "x") rfl (by decide)

/-- C7: on a successful download, `install_skill` writes the full fetched
content to exactly `<project_path>/.claude/skills/<skill_name>/SKILL.md`,
creating every intermediate directory and overwriting any existing file at
that path; every other file is untouched and the only directories created
are the ancestors of the destination directory. -/
theorem C7_install_destination (pp sn : String) (status : Nat) (content : String)
    (fs : FS) (h : status_is_success status = true) :
    (install_skill pp sn (.httpResponse status (.ok content)) fs).1 = .ok () ∧
    (install_skill pp sn (.httpResponse status (.ok content)) fs).2.read
        (skill_dest_file pp sn) = some content ∧
    (∀ q, q ≠ skill_dest_file pp sn →
      (install_skill pp sn (.httpResponse status (.ok content)) fs).2.read q = fs.read q) ∧
    (install_skill pp sn (.httpResponse status (.ok content)) fs).2.dirs =
      pathAncestors (skill_dest_dir pp sn) ++ fs.dirs := by
  refine ⟨?_, ?_, ?_, ?_⟩
  · simp [install_skill, h]
  · simp [install_skill, h, FS.write, FS.createDirAll, FS.read, lookupFile]
  · intro q hq
    simp [install_skill, h, FS.write, FS.createDirAll, FS.read, lookupFile, hq]
  · simp [install_skill, h, FS.write, FS.createDirAll]

/-- Witness for C7: installing `"web"` under `"/proj"` over a pre-existing
destination file, at concrete inputs. -/
theorem C7_install_destination_witness :
    (install_skill "/proj" "web" (.httpResponse 200 (.ok "new body"))
        ⟨[], [(skill_dest_file "/proj" "web", "old body")]⟩).1 = .ok () ∧
    (install_skill "/proj" "web" (.httpResponse 200 (.ok "new body"))
        ⟨[], [(skill_dest_file "/proj" "web", "old body")]⟩).2.read
      (skill_dest_file "/proj" "web") = some "new body" :=
  ⟨(C7_install_destination "/proj" "web" 200 "new body"
      ⟨[], [(skill_dest_file "/proj" "web", "old body")]⟩ (by decide)).1,
   (C7_install_destination "/proj" "web" 200 "new body"
      ⟨[], [(skill_dest_file "/proj" "web", "old body")]⟩ (by decide)).2.1⟩

/-- C8: on every non-success HTTP status from the content endpoint,
`install_skill` fails with the download error carrying the status and
returns the filesystem unchanged. -/
theorem C8_install_error_no_mutation (pp sn : String) (status : Nat)
    (body : Except String String) (fs : FS) (h : status_is_success status = false) :
    install_skill pp sn (.httpResponse status body) fs =
      (.error ("Failed to download SKILL.md: " ++ toString status), fs) := by
  simp [install_skill, h]

/-- Witness for C8: HTTP 404 over a non-trivial filesystem, at concrete
inputs. -/
theorem C8_install_error_no_mutation_witness :
    install_skill "/proj" "web" (.httpResponse 404 (.ok "ignored"))
        ⟨[["/proj"]], [(["/proj", "a.txt"], "x")]⟩ =
      (.error ("Failed to download SKILL.md: " ++ toString 404),
       ⟨[["/proj"]], [(["/proj", "a.txt"], "x")]⟩) :=
  C8_install_error_no_mutation "/proj" "web" 404 (.ok "ignored")
    ⟨[["/proj"]], [(["/proj", "a.txt"], "x")]⟩ (by decide)

/-- C9: installation is idempotent: running `install_skill` twice with the
same successfully fetched content succeeds on the second attempt and leaves
the same final bytes at the destination file as the first run. -/
theorem C9_install_idempotent (pp sn : String) (status : Nat) (content : String)
    (fs : FS) (h : status_is_success status = true) :
    (install_skill pp sn (.httpResponse status (.ok content))
        (install_skill pp sn (.httpResponse status (.ok content)) fs).2).1 = .ok () ∧
    (install_skill pp sn (.httpResponse status (.ok content))
        (install_skill pp sn (.httpResponse status (.ok content)) fs).2).2.read
      (skill_dest_file pp sn) =
      (install_skill pp sn (.httpResponse status (.ok content)) fs).2.read
        (skill_dest_file pp sn) := by
  constructor
  · simp [install_skill, h]
  · simp [install_skill, h, FS.write, FS.createDirAll, FS.read, lookupFile]

/-- Witness for C9: installing `"web"` twice under `"/proj"`, at concrete
inputs. -/
theorem C9_install_idempotent_witness :
    (install_skill "/proj" "web" (.httpResponse 200 (.ok "body"))
        (install_skill "/proj" "web" (.httpResponse 200 (.ok "body")) ⟨[], []⟩).2).1 =
      .ok () :=
  (C9_install_idempotent "/proj" "web" 200 "body" ⟨[], []⟩ (by decide)).1

/-- C10 counterexample: a live `"dir"` element with an empty name and a
relative `html_url` is promoted verbatim by `fetch_mcp_marketplace`, so the
produced entry violates the invariant (non-empty name, absolute URL). -/
theorem C10_counterexample :
    fetch_mcp_marketplace (.httpResponse 200 (.ok [⟨"", "p", "dir", "relative"⟩])) =
      .ok [⟨"", "Official MCP Server: ", "relative"⟩] ∧
    entry_invariant ⟨"", "Official MCP Server: ", "relative"⟩ = false :=
  ⟨rfl, by decide⟩

/-- C10 amended: every static fallback entry satisfies the invariant
(non-empty name, absolute URL); a normalized entry copies the raw element's
name and `html_url` verbatim, so normalized catalogs satisfy the invariant
exactly when every promoted (`"dir"`) element of the raw listing has a
non-empty name and an absolute `html_url` — the invariant is not enforced by
the code on live data. -/
theorem C10_entry_invariant :
    fallback_servers.all entry_invariant = true ∧
    (∀ items,
      (∀ i ∈ items, i.content_type = "dir" →
        i.name.isEmpty = false ∧ is_absolute_url i.html_url = true) →
      (normalize_mcp items).all entry_invariant = true ∧
      (normalize_skills items).all entry_invariant = true) := by
  refine ⟨by decide, ?_⟩
  intro items h
  constructor
  · induction items with
    | nil => rfl
    | cons a rest ih =>
      have ih2 := ih fun i hi => h i (List.mem_cons_of_mem a hi)
      cases hd : a.content_type == "dir" with
      | false => simpa [normalize_mcp, hd] using ih2
      | true =>
        have ha := h a (List.mem_cons_self a rest) (by simpa using hd)
        simp [normalize_mcp, hd, entry_invariant, ha.1, ha.2, ih2]
  · induction items with
    | nil => rfl
    | cons a rest ih =>
      have ih2 := ih fun i hi => h i (List.mem_cons_of_mem a hi)
      cases hd : a.content_type == "dir" with
      | false => simpa [normalize_skills, hd] using ih2
      | true =>
        have ha := h a (List.mem_cons_self a rest) (by simpa using hd)
        simp [normalize_skills, hd, entry_invariant, ha.1, ha.2, ih2]

/-- Witness for C10 amended: a listing whose single `"dir"` element has a
non-empty name and an absolute URL, at concrete inputs. -/
theorem C10_entry_invariant_witness :
    (normalize_mcp [⟨"filesystem", "src/filesystem", "dir", "https://x"⟩]).all
        entry_invariant = true ∧
    (normalize_skills [⟨"filesystem", "src/filesystem", "dir", "https://x"⟩]).all
        entry_invariant = true :=
  C10_entry_invariant.2 [⟨"filesystem", "src/filesystem", "dir", "https://x"⟩]
    (by decide)
